import Mathlib

/-!
Shallow embedding of the Minesweeper engine (the current revision of the
game class, the one with deferred mine placement, kept in this repository
next to the older minesweeper.js revisions).

Modelling conventions, chosen to mirror the JavaScript semantics of the
source:

* A cell object is identified by the coordinate pair it was created with
  (the source gives every cell the id string "x,y", which is in bijection
  with the pair for integer coordinates).  Cell objects are mutable and
  aliased, so the model keeps a heap `cells : Int × Int → CellData` and the
  grid `board_ : List (List (Int × Int))` holds references (ids) by
  position.
* `initBoard_` fills the grid with `Cell(x, y)` — a class constructor
  invoked without `new`, which throws a TypeError as soon as the loops run,
  i.e. whenever width and height are both positive.  `minesweeperNew`
  models the constructor faithfully, including this throw.  `mkState` is
  the engine state the constructor is written to produce (and does produce
  for degenerate empty boards); the operation-level theorems take it as
  their starting state, spelling out in their statements which engine state
  they run the operations on.
* `board_.slice()` is a shallow copy: the column arrays of the copy are the
  column arrays of the live board.  `initMines_` is therefore modelled with
  a local list `view` of column indices (the copied outer array) while the
  column mutations performed through the copy go to `board_` itself.
* Array reads out of range yield `undefined`; calling a method on
  `undefined`, or assigning to a property of `undefined`, throws a
  TypeError.  Computations run in `GameState → Res α` where `Res.err`
  carries the state at the moment of the throw (mutations made before the
  throw persist, as they do in JavaScript).
* Class bodies are strict mode, so assigning to an own property of a frozen
  object throws; mutating a nested object (a cell, the mine set, a column
  array) of a frozen object succeeds.  `Object.freeze(this)` sets the
  `frozen` flag; own-property writes check it.
* `Math.floor(Math.random() * len)` is an arbitrary natural below `len`
  (and 0 when `len = 0`): the model draws a pair from an oracle list
  `rand`, reducing each component modulo the length, with (0, 0) drawn
  once the list is exhausted.  Quantifying over `rand` quantifies over all
  seeds.
* `nowSeconds()` is abstracted as the constant 1 (the claims only observe
  whether `endSeconds_` is set, never its value).
* The recursion of `uncoverNumber_` consumes `fuel`, one unit per nested
  call, modelling the finite JavaScript call stack; exhaustion is the
  RangeError a stack overflow raises.
-/

namespace MinesweeperModel

/-- Possible states for each cell on the game board (the CellState enum). -/
inductive CellState where
  | coveredDefault
  | coveredFlagged
  | coveredQuestionMarked
  | uncoveredNumber
  | uncoveredExplodedMine
  | uncoveredIncorrectFlag
  | uncoveredUnflaggedMine
  | uncoveredCorrectMine
deriving DecidableEq, Repr

/-- The mutable fields of a Cell object: `state_` and `numAdjacentMines_`
(null until the cell is uncovered as a number). -/
structure CellData where
  state : CellState
  numAdjacentMines : Option Int
deriving DecidableEq, Repr

/-- The state of a Minesweeper instance after construction. -/
structure GameState where
  width : Int
  height : Int
  numMines : Int
  numCoveredSafeCells_ : Int
  numFlagsUsed_ : Int
  startSeconds_ : Option Int
  endSeconds_ : Option Int
  /-- The `isLoss` closure: false at construction, rebound to true when a
  mine explodes. -/
  isLoss : Bool
  /-- `board_`: per position, the id of the cell object stored there. -/
  board_ : List (List (Int × Int))
  /-- The heap of cell objects, by id. -/
  cells : Int × Int → CellData
  /-- `mines_`: the Set of mined cell ids, in insertion order. -/
  mines_ : List (Int × Int)
  /-- False until `initMines_` has run (i.e. until `this.initMines_` is
  nulled out by the first accepted uncover). -/
  minesPlaced : Bool
  /-- Whether `Object.freeze(this)` has run. -/
  frozen : Bool
  /-- The oracle for `Math.random()` draws, one pair per placement loop
  iteration. -/
  rand : List (Nat × Nat)

/-- Outcome of running a method: normal return or a thrown exception, in
both cases with the state as it is at that moment. -/
inductive Res (α : Type) where
  | ok : α → GameState → Res α
  | err : String → GameState → Res α

/-- The state carried by an outcome (mutations before a throw persist). -/
def Res.state : Res α → GameState
  | .ok _ s => s
  | .err _ s => s

/-- Whether the computation threw. -/
def Res.threw : Res α → Bool
  | .ok _ _ => false
  | .err _ _ => true

/-- The message of the thrown exception, when one was thrown. -/
def Res.errorMsg : Res α → Option String
  | .ok _ _ => none
  | .err e _ => some e

def undefinedReadError : String :=
  "TypeError: cannot read properties of undefined"

def frozenWriteError : String :=
  "TypeError: cannot assign to property of frozen object"

def stackOverflowError : String :=
  "RangeError: maximum call stack size exceeded"

def rangeErrorNumMines : String :=
  "RangeError: expected numMines less than width times height"

def cellConstructorError : String :=
  "TypeError: class constructor Cell cannot be invoked without new"

/-- JavaScript array read `l[i]`: `undefined` (none) when out of range. -/
def jsGet (l : List α) (i : Int) : Option α :=
  if i < 0 then none else l[i.toNat]?

/-- JavaScript `l.splice(i, 1)` (the removed-element part is unused):
negative start counts from the end, clamped; a start at or past the length
removes nothing. -/
def jsSpliceRemove1 (l : List α) (i : Int) : List α :=
  let s : Nat := if i < 0 then ((l.length : Int) + i).toNat else min i.toNat l.length
  l.take s ++ l.drop (s + 1)

/-- The reference stored at board position (x, y): `none` when `board_[x]`
is undefined (so that reading `[y]` on it throws), `some none` when
`board_[x][y]` is undefined (a method call on it throws). -/
def cellRefAt (st : GameState) (x y : Int) : Option (Option (Int × Int)) :=
  (jsGet st.board_ x).map fun col => jsGet col y

/-- Overwrite the `state_` field of the cell object with the given id. -/
def setCellState (st : GameState) (id : Int × Int) (v : CellState) : GameState :=
  { st with cells := fun j => if j = id then { st.cells j with state := v } else st.cells j }

/-- Overwrite the `numAdjacentMines_` field of the cell object with the
given id. -/
def setCellAdj (st : GameState) (id : Int × Int) (n : Int) : GameState :=
  { st with cells := fun j =>
      if j = id then { st.cells j with numAdjacentMines := some n } else st.cells j }

/-- `nowSeconds()`, abstracted (see the module comment). -/
def nowSeconds : Int := 1

/-- Whether a cell state is one of the three covered states. -/
def isCoveredState : CellState → Bool
  | .coveredDefault => true
  | .coveredFlagged => true
  | .coveredQuestionMarked => true
  | _ => false

/-- `isDone()`: whether `endSeconds_` is set. -/
def isDone (st : GameState) : Bool := st.endSeconds_.isSome

/-- `getNumFlagsRemaining()`. -/
def getNumFlagsRemaining (st : GameState) : Int := st.numMines - st.numFlagsUsed_

/-- The engine state the constructor is written to build once its range
check passes: the field assignments of the constructor body plus the grid
`initBoard_` is meant to fill.  In the source, `initBoard_` reaches a
`Cell(x, y)` call — a class constructor invoked without `new`, a TypeError —
for every board with at least one cell, so the constructor returns this
state only for degenerate empty boards; the operation-level theorems use it
as the engine state the methods are specified against. -/
def mkState (w h m : Int) (rand : List (Nat × Nat)) : GameState :=
  { width := w
    height := h
    numMines := m
    numCoveredSafeCells_ := w * h - m
    numFlagsUsed_ := 0
    startSeconds_ := none
    endSeconds_ := none
    isLoss := false
    board_ := (List.range w.toNat).map fun x =>
      (List.range h.toNat).map fun y => ((x : Int), (y : Int))
    cells := fun _ => { state := .coveredDefault, numAdjacentMines := none }
    mines_ := []
    minesPlaced := false
    frozen := false
    rand := rand }

/-- The constructor: throws a RangeError when `numMines >= width * height`
(the only validation that exists); otherwise runs `initBoard_`, whose
`Cell(x, y)` call throws a TypeError whenever both loops execute, i.e.
whenever width and height are both positive; only for a degenerate empty
board does construction complete, with the state `mkState` describes. -/
def minesweeperNew (w h m : Int) (rand : List (Nat × Nat)) : Except String GameState :=
  if w * h ≤ m then .error rangeErrorNumMines
  else if 0 < w ∧ 0 < h then .error cellConstructorError
  else .ok (mkState w h m rand)

/-- `toggleCoveredState(x, y)`: cycle the covered state; on a non-covered
state the default branch only logs.  The cell write precedes the counter
write, and the counter write is an own-property write (it throws when the
instance is frozen, after the cell write took effect). -/
def toggleCoveredState (x y : Int) (st : GameState) : Res Unit :=
  match cellRefAt st x y with
  | none => .err undefinedReadError st
  | some none => .err undefinedReadError st
  | some (some id) =>
    match (st.cells id).state with
    | .coveredDefault =>
        let st1 := setCellState st id .coveredFlagged
        if st1.frozen then .err frozenWriteError st1
        else .ok () { st1 with numFlagsUsed_ := st1.numFlagsUsed_ + 1 }
    | .coveredFlagged =>
        let st1 := setCellState st id .coveredQuestionMarked
        if st1.frozen then .err frozenWriteError st1
        else .ok () { st1 with numFlagsUsed_ := st1.numFlagsUsed_ - 1 }
    | .coveredQuestionMarked =>
        .ok () (setCellState st id .coveredDefault)
    | _ => .ok () st

/-- `isState_(x, y, expectedState)` (the console.error on mismatch is not
modelled; it mutates nothing). -/
def isState_ (x y : Int) (expected : CellState) (st : GameState) : Res Bool :=
  match cellRefAt st x y with
  | none => .err undefinedReadError st
  | some none => .err undefinedReadError st
  | some (some id) => .ok (decide ((st.cells id).state = expected)) st

/-- `hasMine_(x, y)`: reads the id of the cell currently stored at position
(x, y) and tests membership in the mine set. -/
def hasMine_ (x y : Int) (st : GameState) : Res Bool :=
  match cellRefAt st x y with
  | none => .err undefinedReadError st
  | some none => .err undefinedReadError st
  | some (some id) => .ok (decide (id ∈ st.mines_)) st

/-- Draw the next oracle pair ((0, 0) when exhausted). -/
def nextRand (st : GameState) : (Nat × Nat) × GameState :=
  match st.rand with
  | [] => ((0, 0), st)
  | p :: rest => (p, { st with rand := rest })

/-- The sampling loop of `initMines_`.  `view` is the shallow copy of the
outer board array, kept as a list of column indices into `board_` (the
column arrays themselves are shared with the live board).  Per iteration:
pick a column of the view, pick a cell of that column, add its id to the
mine set, then remove either the whole column from the view (when it had
one cell left) or the cell from the shared column array (mutating the live
board).  An empty view or an empty shared column makes the corresponding
indexed read yield undefined and the subsequent member access throw. -/
def initMinesLoop : Nat → List Nat → GameState → Res Unit
  | 0, _, st => .ok () st
  | n + 1, view, st =>
    let p := nextRand st
    let rx := p.1.1
    let ry := p.1.2
    let st1 := p.2
    let randomX : Nat := if view.length = 0 then 0 else rx % view.length
    match view[randomX]? with
    | none => .err undefinedReadError st1
    | some colIdx =>
      match st1.board_[colIdx]? with
      | none => .err undefinedReadError st1
      | some col =>
        let randomY : Nat := if col.length = 0 then 0 else ry % col.length
        match col[randomY]? with
        | none => .err undefinedReadError st1
        | some cellId =>
          let st2 := { st1 with mines_ :=
            if cellId ∈ st1.mines_ then st1.mines_ else st1.mines_ ++ [cellId] }
          if col.length = 1 then
            initMinesLoop n (view.eraseIdx randomX) st2
          else
            initMinesLoop n view { st2 with board_ := st2.board_.set colIdx (col.eraseIdx randomY) }

/-- `initMines_(notX, notY)`: splice the cell at (notX, notY) out of column
notX.  The copy `board_.slice()` shares its column arrays with the live
board, so this splice mutates the live board; then run the sampling loop
over the copied outer array (the initial view is every column index). -/
def initMines_ (notX notY : Int) (st : GameState) : Res Unit :=
  match jsGet st.board_ notX with
  | none => .err undefinedReadError st
  | some col =>
    let st1 := { st with board_ := st.board_.set notX.toNat (jsSpliceRemove1 col notY) }
    initMinesLoop st1.numMines.toNat (List.range st1.board_.length) st1

/-- `countIf((cell) => this.hasMine_(cell.getX(), cell.getY()), cells)`:
the callback dereferences each element (throwing on undefined) and asks
`hasMine_` at the cell object's own coordinates, which reads the board at
that position again. -/
def countMinesIn : List (Option (Int × Int)) → GameState → Res Int
  | [], st => .ok 0 st
  | none :: _, st => .err undefinedReadError st
  | some id :: rest, st =>
    match hasMine_ id.1 id.2 st with
    | .err e s => .err e s
    | .ok b s =>
      match countMinesIn rest s with
      | .err e s1 => .err e s1
      | .ok n s1 => .ok (if b then n + 1 else n) s1

/-- `countIf((cell) => cell.getState() === CellState.COVERED_FLAGGED, cells)`:
reads each cell object directly (no board lookup). -/
def countFlagsIn : List (Option (Int × Int)) → GameState → Res Int
  | [], st => .ok 0 st
  | none :: _, st => .err undefinedReadError st
  | some id :: rest, st =>
    match countFlagsIn rest st with
    | .err e s1 => .err e s1
    | .ok n s1 =>
      .ok (if (st.cells id).state = .coveredFlagged then n + 1 else n) s1

/-- `getAdjacentCells_(x, y)`: the up-to-8 in-bounds neighbour positions in
loop order, each read from the live board (an out-of-range inner read
pushes undefined; an undefined column would make the read itself throw). -/
def getAdjacentCells_ (st : GameState) (x y : Int) :
    Except String (List (Option (Int × Int))) :=
  let offsets : List (Int × Int) :=
    [(-1, -1), (-1, 0), (-1, 1), (0, -1), (0, 1), (1, -1), (1, 0), (1, 1)]
  let inBounds := offsets.filterMap fun p =>
    let ax := x + p.1
    if ax < 0 ∨ st.width ≤ ax then none
    else
      let ay := y + p.2
      if ay < 0 ∨ st.height ≤ ay then none else some (ax, ay)
  inBounds.mapM fun q =>
    match jsGet st.board_ q.1 with
    | none => .error undefinedReadError
    | some col => .ok (jsGet col q.2)

/-- A for-of loop over cell references that applies `visit` to each
reference whose current state is covered-default, threading the state and
propagating a throw; a stored undefined makes the `getState()` call throw.
Used for the recursion loop of `uncoverNumber_` (with the recursive call as
`visit`) and for the loop of `uncoverAdjacentCells`. -/
def visitDefaultCovered (visit : Int → Int → GameState → Res Unit) :
    List (Option (Int × Int)) → GameState → Res Unit
  | [], st => .ok () st
  | none :: _, st => .err undefinedReadError st
  | some id :: rest, st =>
    if (st.cells id).state = .coveredDefault then
      match visit id.1 id.2 st with
      | .err e s => .err e s
      | .ok _ s => visitDefaultCovered visit rest s
    else visitDefaultCovered visit rest st

/-- `uncoverNumber_(x, y)`: mark the cell object at position (x, y) as an
uncovered number, decrement the covered-safe counter (an own-property
write), compute and store the adjacent-mine count, and when it is zero
recurse into every adjacent cell object still in the covered-default
state.  One unit of fuel per nested call. -/
def uncoverNumber_ : Nat → Int → Int → GameState → Res Unit
  | 0, _, _, st => .err stackOverflowError st
  | fuel + 1, x, y, st =>
    match cellRefAt st x y with
    | none => .err undefinedReadError st
    | some none => .err undefinedReadError st
    | some (some id) =>
      let st1 := setCellState st id .uncoveredNumber
      if st1.frozen then .err frozenWriteError st1
      else
        let st2 := { st1 with numCoveredSafeCells_ := st1.numCoveredSafeCells_ - 1 }
        match getAdjacentCells_ st2 x y with
        | .error e => .err e st2
        | .ok refs =>
          match countMinesIn refs st2 with
          | .err e s => .err e s
          | .ok n s =>
            let s1 := setCellAdj s id n
            if 0 < n then .ok () s1
            else visitDefaultCovered (uncoverNumber_ fuel) refs s1

/-- `uncoverDefaultCovered_(x, y)`: uncover as a number when the position
has no mine; otherwise mark the cell object there as the exploded mine and
rebind `isLoss` (an own-property write). -/
def uncoverDefaultCovered_ (fuel : Nat) (x y : Int) (st : GameState) : Res Unit :=
  match hasMine_ x y st with
  | .err e s => .err e s
  | .ok false s => uncoverNumber_ fuel x y s
  | .ok true s =>
    match cellRefAt s x y with
    | none => .err undefinedReadError s
    | some none => .err undefinedReadError s
    | some (some id) =>
      let s1 := setCellState s id .uncoveredExplodedMine
      if s1.frozen then .err frozenWriteError s1
      else .ok () { s1 with isLoss := true }

/-- One cell of the end-game sweep of `maybeEndGame_`. -/
def endGameCell (x y : Int) (st : GameState) : Res Unit :=
  match hasMine_ x y st with
  | .err e s => .err e s
  | .ok hm s =>
    match cellRefAt s x y with
    | none => .err undefinedReadError s
    | some none => .err undefinedReadError s
    | some (some id) =>
      let state := (s.cells id).state
      if hm = false ∧ state ≠ .coveredFlagged then .ok () s
      else if hm = false then .ok () (setCellState s id .uncoveredIncorrectFlag)
      else if state ≠ .coveredFlagged then .ok () (setCellState s id .uncoveredUnflaggedMine)
      else .ok () (setCellState s id .uncoveredCorrectMine)

/-- The double loop of `maybeEndGame_`, in x-major order. -/
def endGameLoop : List (Int × Int) → GameState → Res Unit
  | [], st => .ok () st
  | (x, y) :: rest, st =>
    match endGameCell x y st with
    | .err e s => .err e s
    | .ok _ s => endGameLoop rest s

/-- The coordinates (x, y), x then y, swept by `maybeEndGame_`. -/
def gridCoords (w h : Int) : List (Int × Int) :=
  (List.range w.toNat).flatMap fun x =>
    (List.range h.toNat).map fun y => ((x : Int), (y : Int))

/-- `maybeEndGame_()`: return unless lost or out of covered safe cells;
otherwise set `endSeconds_` (an own-property write), sweep the board
reclassifying mined and incorrectly flagged cells, and finally
`Object.freeze(this)`. -/
def maybeEndGame_ (st : GameState) : Res Unit :=
  if st.isLoss = false ∧ 0 < st.numCoveredSafeCells_ then .ok () st
  else if st.frozen then .err frozenWriteError st
  else
    let st1 := { st with endSeconds_ := some nowSeconds }
    match endGameLoop (gridCoords st1.width st1.height) st1 with
    | .err e s => .err e s
    | .ok _ s => .ok () { s with frozen := true }

/-- `uncover(x, y)`: reject unless the position holds a covered-default
cell; on the first accepted uncover run `initMines_(x, y)`, null it out and
start the clock (own-property writes); then uncover and evaluate the end of
the game. -/
def uncover (fuel : Nat) (x y : Int) (st : GameState) : Res Unit :=
  match isState_ x y .coveredDefault st with
  | .err e s => .err e s
  | .ok false s => .ok () s
  | .ok true s =>
    let afterInit : Res Unit :=
      if s.minesPlaced then .ok () s
      else
        match initMines_ x y s with
        | .err e s1 => .err e s1
        | .ok _ s1 =>
          if s1.frozen then .err frozenWriteError s1
          else .ok () { s1 with minesPlaced := true, startSeconds_ := some nowSeconds }
    match afterInit with
    | .err e s1 => .err e s1
    | .ok _ s1 =>
      match uncoverDefaultCovered_ fuel x y s1 with
      | .err e s2 => .err e s2
      | .ok _ s2 => maybeEndGame_ s2

/-- `uncoverAdjacentCells(x, y)` (the chord operation): valid only on an
uncovered number; reject when the adjacent flag count differs from the
stored adjacent-mine count (a null stored count never matches); otherwise
uncover the covered-default neighbours and evaluate the end of the game. -/
def uncoverAdjacentCells (fuel : Nat) (x y : Int) (st : GameState) : Res Unit :=
  match isState_ x y .uncoveredNumber st with
  | .err e s => .err e s
  | .ok false s => .ok () s
  | .ok true s =>
    match getAdjacentCells_ s x y with
    | .error e => .err e s
    | .ok refs =>
      match countFlagsIn refs s with
      | .err e s1 => .err e s1
      | .ok nf s1 =>
        match cellRefAt s1 x y with
        | none => .err undefinedReadError s1
        | some none => .err undefinedReadError s1
        | some (some id) =>
          match (s1.cells id).numAdjacentMines with
          | none => .ok () s1
          | some nm =>
            if nf ≠ nm then .ok () s1
            else
              match visitDefaultCovered (uncoverDefaultCovered_ fuel) refs s1 with
              | .err e s2 => .err e s2
              | .ok _ s2 => maybeEndGame_ s2

/-! ## Theorems for the claims -/

/-- C1: refuted on the code.  The spec says no operation throws due to
internal algorithm failure.  On a 2 by 2 board with one mine, the first
uncover at (0, 1) throws a TypeError, for this seed (and in fact for every
seed): the shallow `board_.slice()` lets `initMines_` splice the cell
(0, 1) out of the live column 0, so `hasMine_(0, 1)` then reads
`board_[0][1]`, which is undefined, and calls `getId()` on it. -/
theorem uncover_throws_internal_typeerror :
    (uncover 9 0 1 (mkState 2 2 1 [(0, 0)])).errorMsg = some undefinedReadError := rfl

/-- C2: refuted on the code.  On a 2 by 2 board with two mines placed by
the seed below, the first uncover at (0, 0) explodes (the mined cell (0, 1)
has shifted into position (0, 0)), `maybeEndGame_` sets `endSeconds_` (so
the game is done) but its sweep throws on the shortened column before
reaching `Object.freeze`, so a later `toggleCoveredState(1, 0)` still
mutates the covered cell there from Default to Flagged. -/
theorem toggle_mutates_cell_after_game_done :
    isDone ((uncover 9 0 0 (mkState 2 2 2 [(0, 0), (0, 0)])).state) = true ∧
    ((((uncover 9 0 0 (mkState 2 2 2 [(0, 0), (0, 0)])).state).cells (1, 1)).state
       = CellState.coveredDefault) ∧
    ((((toggleCoveredState 1 0
          ((uncover 9 0 0 (mkState 2 2 2 [(0, 0), (0, 0)])).state)).state).cells (1, 1)).state
       = CellState.coveredFlagged) :=
  ⟨rfl, rfl, rfl⟩

/-- C3: refuted on the code.  On a 1 by 2 board with one mine the first
uncover at (0, 0) explodes the mine (state ExplodedMine, loss), but the
end-game sweep of `maybeEndGame_` reclassifies that very cell: it is mined
and its state is not COVERED_FLAGGED, so it is overwritten to
UNCOVERED_UNFLAGGED_MINE.  After end-game evaluation the exploded cell is
not in the ExplodedMine state. -/
theorem exploded_mine_reclassified_unflagged :
    ((uncover 9 0 0 (mkState 1 2 1 [(0, 0)])).state).isLoss = true ∧
    isDone ((uncover 9 0 0 (mkState 1 2 1 [(0, 0)])).state) = true ∧
    ((((uncover 9 0 0 (mkState 1 2 1 [(0, 0)])).state).cells (0, 1)).state
       = CellState.uncoveredUnflaggedMine) :=
  ⟨rfl, rfl, rfl⟩

/-- C5: refuted on the code.  The spec's own scenario: a 1 by 1 board with
0 mines.  `reveal(0, 0)` does not win the game: the exclusion splice of
`initMines_` empties the only column of the live board, so `hasMine_(0, 0)`
throws; the game is not done, the cell is still covered and the
covered-safe count is still 1. -/
theorem one_by_one_reveal_throws_not_won :
    (uncover 2 0 0 (mkState 1 1 0 [])).errorMsg = some undefinedReadError ∧
    isDone ((uncover 2 0 0 (mkState 1 1 0 [])).state) = false ∧
    ((((uncover 2 0 0 (mkState 1 1 0 [])).state).cells (0, 0)).state
       = CellState.coveredDefault) ∧
    ((uncover 2 0 0 (mkState 1 1 0 [])).state).numCoveredSafeCells_ = 1 :=
  ⟨rfl, rfl, rfl, rfl⟩

/-- C6: refuted on the code.  On a 3 by 3 board with one mine, after the
first uncover at (1, 1) the live board's columns have lengths [2, 2, 3]
instead of height = 3 for each: `initMines_` spliced cell (1, 1) out of
column 1 and the sampled mine out of column 0, through the shallow copy. -/
theorem init_mines_shrinks_board_columns :
    (((uncover 9 1 1 (mkState 3 3 1 [(0, 0)])).state).board_.map List.length) = [2, 2, 3] ∧
    (mkState 3 3 1 [(0, 0)]).height = 3 :=
  ⟨by decide, rfl⟩

/-- C8: refuted on the code.  On a 1 by 3 board with one mine, flag (0, 1)
and then uncover (0, 0) with the seed placing the mine at (0, 2).  The
exclusion splice shifts the flagged cell (0, 1) into position (0, 0), so
the reveal logic overwrites the Flagged cell to UNCOVERED_NUMBER - the
flood-fill reveal does change a Flagged cell. -/
theorem uncover_overwrites_flagged_cell :
    ((((toggleCoveredState 0 1 (mkState 1 3 1 [(0, 1)])).state).cells (0, 1)).state
       = CellState.coveredFlagged) ∧
    ((((uncover 4 0 0
          ((toggleCoveredState 0 1 (mkState 1 3 1 [(0, 1)])).state)).state).cells (0, 1)).state
       = CellState.uncoveredNumber) :=
  ⟨rfl, by decide⟩

/-- C4: refuted on the code.  The excluded id is indeed never inserted into
the mine set, but the game can still be lost on the first move: on a 1 by 2
board with one mine the draws are forced (every modulus is 1), the mine
lands on cell (0, 1), and the exclusion splice shifts that mined cell into
position (0, 0), so the first uncover at (0, 0) explodes it — for every
seed and every stack budget. -/
theorem first_uncover_loses_for_every_seed (fuel : Nat) (rand : List (Nat × Nat)) :
    ((uncover fuel 0 0 (mkState 1 2 1 rand)).state).isLoss = true := by
  cases rand with
  | nil => rfl
  | cons p rest =>
    obtain ⟨rx, ry⟩ := p
    have hx : rx % 1 = 0 := Nat.mod_one rx
    have hy : ry % 1 = 0 := Nat.mod_one ry
    have hmk : mkState 1 2 1 ((rx, ry) :: rest) =
        { width := 1, height := 2, numMines := 1, numCoveredSafeCells_ := 1,
          numFlagsUsed_ := 0, startSeconds_ := none, endSeconds_ := none, isLoss := false,
          board_ := [[((0 : Int), (0 : Int)), ((0 : Int), (1 : Int))]],
          cells := fun _ => { state := .coveredDefault, numAdjacentMines := none },
          mines_ := [], minesPlaced := false, frozen := false,
          rand := (rx, ry) :: rest } := rfl
    rw [hmk]
    simp [uncover, isState_, cellRefAt, jsGet, initMines_, initMinesLoop, nextRand,
      jsSpliceRemove1, hx, hy, uncoverDefaultCovered_, hasMine_, setCellState, maybeEndGame_,
      endGameLoop, endGameCell, gridCoords, Res.state, List.range_succ]

/-! Projection lemmas used by the toggle proofs. -/

theorem Res_state_ok (a : α) (s : GameState) : (Res.ok a s).state = s := rfl

theorem setCellState_board_ (st : GameState) (id : Int × Int) (v : CellState) :
    (setCellState st id v).board_ = st.board_ := rfl

theorem setCellState_frozen (st : GameState) (id : Int × Int) (v : CellState) :
    (setCellState st id v).frozen = st.frozen := rfl

theorem setCellState_numFlagsUsed_ (st : GameState) (id : Int × Int) (v : CellState) :
    (setCellState st id v).numFlagsUsed_ = st.numFlagsUsed_ := rfl

theorem setCellState_cells_self (st : GameState) (id : Int × Int) (v : CellState) :
    (setCellState st id v).cells id = { st.cells id with state := v } := by
  simp [setCellState]

theorem setCellState_cells_ne (st : GameState) (id j : Int × Int) (v : CellState)
    (h : j ≠ id) : (setCellState st id v).cells j = st.cells j := by
  simp [setCellState, h]

/-- Rebasing a cell lookup along an equality of boards. -/
theorem cellRefAt_congr (st1 st2 : GameState) (x y : Int)
    (h : st1.board_ = st2.board_) : cellRefAt st1 x y = cellRefAt st2 x y := by
  simp [cellRefAt, h]

/-- How one `toggleCoveredState` call runs when board position (x, y) holds
a cell reference and the instance is not frozen: the switch on the current
state of that cell object. -/
theorem toggleCoveredState_run (st : GameState) (x y : Int) (id : Int × Int)
    (hc : cellRefAt st x y = some (some id)) (hfree : st.frozen = false) :
    toggleCoveredState x y st =
      match (st.cells id).state with
      | .coveredDefault =>
          Res.ok () { setCellState st id .coveredFlagged with
                        numFlagsUsed_ := st.numFlagsUsed_ + 1 }
      | .coveredFlagged =>
          Res.ok () { setCellState st id .coveredQuestionMarked with
                        numFlagsUsed_ := st.numFlagsUsed_ - 1 }
      | .coveredQuestionMarked => Res.ok () (setCellState st id .coveredDefault)
      | _ => Res.ok () st := by
  unfold toggleCoveredState
  rw [hc]
  cases hs : (st.cells id).state <;>
    simp [hs, setCellState_frozen, setCellState_numFlagsUsed_, hfree]

/-- The state after toggling a covered-default cell. -/
theorem toggle_after_default (st : GameState) (x y : Int) (id : Int × Int)
    (hc : cellRefAt st x y = some (some id)) (hfree : st.frozen = false)
    (hs : (st.cells id).state = CellState.coveredDefault) :
    (toggleCoveredState x y st).state =
      { setCellState st id CellState.coveredFlagged with
          numFlagsUsed_ := st.numFlagsUsed_ + 1 } := by
  rw [toggleCoveredState_run st x y id hc hfree, hs]
  rfl

/-- The state after toggling a covered-flagged cell. -/
theorem toggle_after_flagged (st : GameState) (x y : Int) (id : Int × Int)
    (hc : cellRefAt st x y = some (some id)) (hfree : st.frozen = false)
    (hs : (st.cells id).state = CellState.coveredFlagged) :
    (toggleCoveredState x y st).state =
      { setCellState st id CellState.coveredQuestionMarked with
          numFlagsUsed_ := st.numFlagsUsed_ - 1 } := by
  rw [toggleCoveredState_run st x y id hc hfree, hs]
  rfl

/-- The state after toggling a covered-question-marked cell. -/
theorem toggle_after_qm (st : GameState) (x y : Int) (id : Int × Int)
    (hc : cellRefAt st x y = some (some id)) (hfree : st.frozen = false)
    (hs : (st.cells id).state = CellState.coveredQuestionMarked) :
    (toggleCoveredState x y st).state = setCellState st id CellState.coveredDefault := by
  rw [toggleCoveredState_run st x y id hc hfree, hs]
  rfl

/-- A toggle call on a resolvable, unfrozen position leaves the board
structure unchanged. -/
theorem toggle_board_eq (st : GameState) (x y : Int) (id : Int × Int)
    (hc : cellRefAt st x y = some (some id)) (hfree : st.frozen = false) :
    ((toggleCoveredState x y st).state).board_ = st.board_ := by
  rw [toggleCoveredState_run st x y id hc hfree]
  cases hs : (st.cells id).state <;> simp only [hs] <;> rfl

/-- A toggle call on a resolvable, unfrozen position leaves the frozen flag
unchanged. -/
theorem toggle_frozen_eq (st : GameState) (x y : Int) (id : Int × Int)
    (hc : cellRefAt st x y = some (some id)) (hfree : st.frozen = false) :
    ((toggleCoveredState x y st).state).frozen = st.frozen := by
  rw [toggleCoveredState_run st x y id hc hfree]
  cases hs : (st.cells id).state <;> simp only [hs] <;> rfl

/-- The toggled cell after toggling a covered-default cell. -/
theorem toggle_cells_default (st : GameState) (x y : Int) (id : Int × Int)
    (hc : cellRefAt st x y = some (some id)) (hfree : st.frozen = false)
    (hs : (st.cells id).state = CellState.coveredDefault) :
    ((toggleCoveredState x y st).state).cells id
      = { st.cells id with state := CellState.coveredFlagged } := by
  rw [toggle_after_default st x y id hc hfree hs]
  simp [setCellState]

/-- The flag counter after toggling a covered-default cell. -/
theorem toggle_flags_default (st : GameState) (x y : Int) (id : Int × Int)
    (hc : cellRefAt st x y = some (some id)) (hfree : st.frozen = false)
    (hs : (st.cells id).state = CellState.coveredDefault) :
    ((toggleCoveredState x y st).state).numFlagsUsed_ = st.numFlagsUsed_ + 1 := by
  rw [toggle_after_default st x y id hc hfree hs]

/-- The toggled cell after toggling a covered-flagged cell. -/
theorem toggle_cells_flagged (st : GameState) (x y : Int) (id : Int × Int)
    (hc : cellRefAt st x y = some (some id)) (hfree : st.frozen = false)
    (hs : (st.cells id).state = CellState.coveredFlagged) :
    ((toggleCoveredState x y st).state).cells id
      = { st.cells id with state := CellState.coveredQuestionMarked } := by
  rw [toggle_after_flagged st x y id hc hfree hs]
  simp [setCellState]

/-- The flag counter after toggling a covered-flagged cell. -/
theorem toggle_flags_flagged (st : GameState) (x y : Int) (id : Int × Int)
    (hc : cellRefAt st x y = some (some id)) (hfree : st.frozen = false)
    (hs : (st.cells id).state = CellState.coveredFlagged) :
    ((toggleCoveredState x y st).state).numFlagsUsed_ = st.numFlagsUsed_ - 1 := by
  rw [toggle_after_flagged st x y id hc hfree hs]

/-- The toggled cell after toggling a covered-question-marked cell. -/
theorem toggle_cells_qm (st : GameState) (x y : Int) (id : Int × Int)
    (hc : cellRefAt st x y = some (some id)) (hfree : st.frozen = false)
    (hs : (st.cells id).state = CellState.coveredQuestionMarked) :
    ((toggleCoveredState x y st).state).cells id
      = { st.cells id with state := CellState.coveredDefault } := by
  rw [toggle_after_qm st x y id hc hfree hs]
  simp [setCellState]

/-- The flag counter after toggling a covered-question-marked cell. -/
theorem toggle_flags_qm (st : GameState) (x y : Int) (id : Int × Int)
    (hc : cellRefAt st x y = some (some id)) (hfree : st.frozen = false)
    (hs : (st.cells id).state = CellState.coveredQuestionMarked) :
    ((toggleCoveredState x y st).state).numFlagsUsed_ = st.numFlagsUsed_ := by
  rw [toggle_after_qm st x y id hc hfree hs]
  rfl

/-- C9: confirmed.  When board position (x, y) holds a cell reference, the
game is not frozen and the cell is covered, `toggleCoveredState` cycles
exactly Default to Flagged (flags_used plus one), Flagged to QuestionMarked
(flags_used minus one), QuestionMarked to Default (flags_used unchanged);
on a non-covered cell it is a no-op; and three consecutive toggles restore
both the cell and flags_used. -/
theorem toggle_cycle_spec (st : GameState) (x y : Int) (col : List (Int × Int))
    (id : Int × Int) (hcol : jsGet st.board_ x = some col) (hid : jsGet col y = some id)
    (hfree : st.frozen = false) :
    ((st.cells id).state = CellState.coveredDefault →
      toggleCoveredState x y st =
        Res.ok () { setCellState st id CellState.coveredFlagged with
                      numFlagsUsed_ := st.numFlagsUsed_ + 1 }) ∧
    ((st.cells id).state = CellState.coveredFlagged →
      toggleCoveredState x y st =
        Res.ok () { setCellState st id CellState.coveredQuestionMarked with
                      numFlagsUsed_ := st.numFlagsUsed_ - 1 }) ∧
    ((st.cells id).state = CellState.coveredQuestionMarked →
      toggleCoveredState x y st = Res.ok () (setCellState st id CellState.coveredDefault)) ∧
    (isCoveredState (st.cells id).state = false → toggleCoveredState x y st = Res.ok () st) ∧
    (isCoveredState (st.cells id).state = true →
      ((toggleCoveredState x y
          ((toggleCoveredState x y
              ((toggleCoveredState x y st).state)).state)).state).cells id = st.cells id ∧
      ((toggleCoveredState x y
          ((toggleCoveredState x y
              ((toggleCoveredState x y st).state)).state)).state).numFlagsUsed_
        = st.numFlagsUsed_) := by
  have hc : cellRefAt st x y = some (some id) := by simp [cellRefAt, hcol, hid]
  have run := toggleCoveredState_run st x y id hc hfree
  refine ⟨fun hs => ?_, fun hs => ?_, fun hs => ?_, fun hs => ?_, fun hs => ?_⟩
  · rw [run, hs]
  · rw [run, hs]
  · rw [run, hs]
  · rw [run]
    cases hv : (st.cells id).state <;> simp [isCoveredState, hv] at hs ⊢
  · have z1 : ((toggleCoveredState x y st).state).frozen = false := by
      rw [toggle_frozen_eq st x y id hc hfree]; exact hfree
    have hc1 : cellRefAt ((toggleCoveredState x y st).state) x y = some (some id) :=
      (cellRefAt_congr _ _ x y (toggle_board_eq st x y id hc hfree)).trans hc
    have z2 : (((toggleCoveredState x y
        ((toggleCoveredState x y st).state)).state)).frozen = false := by
      rw [toggle_frozen_eq ((toggleCoveredState x y st).state) x y id hc1 z1]
      exact z1
    have hc2 : cellRefAt ((toggleCoveredState x y
        ((toggleCoveredState x y st).state)).state) x y = some (some id) :=
      (cellRefAt_congr _ _ x y
        (toggle_board_eq ((toggleCoveredState x y st).state) x y id hc1 z1)).trans hc1
    cases hv : (st.cells id).state <;> simp [isCoveredState, hv] at hs
    case coveredDefault =>
      have c1 := toggle_cells_default st x y id hc hfree hv
      have f1 := toggle_flags_default st x y id hc hfree hv
      have c2 := toggle_cells_flagged ((toggleCoveredState x y st).state) x y id
        hc1 z1 (by rw [c1])
      have f2 := toggle_flags_flagged ((toggleCoveredState x y st).state) x y id
        hc1 z1 (by rw [c1])
      have c3 := toggle_cells_qm ((toggleCoveredState x y
          ((toggleCoveredState x y st).state)).state) x y id
        hc2 z2 (by rw [c2, c1])
      have f3 := toggle_flags_qm ((toggleCoveredState x y
          ((toggleCoveredState x y st).state)).state) x y id
        hc2 z2 (by rw [c2, c1])
      refine ⟨?_, ?_⟩
      · rw [c3, c2, c1, ← hv]
      · rw [f3, f2, f1]
        omega
    case coveredFlagged =>
      have c1 := toggle_cells_flagged st x y id hc hfree hv
      have f1 := toggle_flags_flagged st x y id hc hfree hv
      have c2 := toggle_cells_qm ((toggleCoveredState x y st).state) x y id
        hc1 z1 (by rw [c1])
      have f2 := toggle_flags_qm ((toggleCoveredState x y st).state) x y id
        hc1 z1 (by rw [c1])
      have c3 := toggle_cells_default ((toggleCoveredState x y
          ((toggleCoveredState x y st).state)).state) x y id
        hc2 z2 (by rw [c2, c1])
      have f3 := toggle_flags_default ((toggleCoveredState x y
          ((toggleCoveredState x y st).state)).state) x y id
        hc2 z2 (by rw [c2, c1])
      refine ⟨?_, ?_⟩
      · rw [c3, c2, c1, ← hv]
      · rw [f3, f2, f1]
        omega
    case coveredQuestionMarked =>
      have c1 := toggle_cells_qm st x y id hc hfree hv
      have f1 := toggle_flags_qm st x y id hc hfree hv
      have c2 := toggle_cells_default ((toggleCoveredState x y st).state) x y id
        hc1 z1 (by rw [c1])
      have f2 := toggle_flags_default ((toggleCoveredState x y st).state) x y id
        hc1 z1 (by rw [c1])
      have c3 := toggle_cells_flagged ((toggleCoveredState x y
          ((toggleCoveredState x y st).state)).state) x y id
        hc2 z2 (by rw [c2, c1])
      have f3 := toggle_flags_flagged ((toggleCoveredState x y
          ((toggleCoveredState x y st).state)).state) x y id
        hc2 z2 (by rw [c2, c1])
      refine ⟨?_, ?_⟩
      · rw [c3, c2, c1, ← hv]
      · rw [f3, f2, f1]
        omega

/-- Witness for C9 at a concrete input: a fresh 2 by 2 game with one mine,
toggling (0, 0) once and three times. -/
theorem toggle_cycle_spec_witness :
    toggleCoveredState 0 0 (mkState 2 2 1 []) =
      Res.ok () { setCellState (mkState 2 2 1 []) (0, 0) CellState.coveredFlagged with
                    numFlagsUsed_ := (mkState 2 2 1 []).numFlagsUsed_ + 1 } ∧
    ((toggleCoveredState 0 0
        ((toggleCoveredState 0 0
            ((toggleCoveredState 0 0 (mkState 2 2 1 [])).state)).state)).state).cells (0, 0)
      = (mkState 2 2 1 []).cells (0, 0) := by
  have h := toggle_cycle_spec (mkState 2 2 1 []) 0 0 [(0, 0), (0, 1)] (0, 0)
    (by decide) (by decide) rfl
  exact ⟨h.1 rfl, (h.2.2.2.2 rfl).1⟩

/-- C10: confirmed.  In a non-frozen game a single `toggleCoveredState`
call leaves the board structure, the mine set, the covered-safe counter,
the dimensions, the placement flag and the done flag unchanged, and changes
no cell other than the one whose reference is stored at position (x, y). -/
theorem toggle_frame_spec (st : GameState) (x y : Int) (hfree : st.frozen = false) :
    ((toggleCoveredState x y st).state).board_ = st.board_ ∧
    ((toggleCoveredState x y st).state).mines_ = st.mines_ ∧
    ((toggleCoveredState x y st).state).numCoveredSafeCells_ = st.numCoveredSafeCells_ ∧
    ((toggleCoveredState x y st).state).width = st.width ∧
    ((toggleCoveredState x y st).state).height = st.height ∧
    ((toggleCoveredState x y st).state).numMines = st.numMines ∧
    ((toggleCoveredState x y st).state).minesPlaced = st.minesPlaced ∧
    ((toggleCoveredState x y st).state).endSeconds_ = st.endSeconds_ ∧
    ∀ j : Int × Int, cellRefAt st x y ≠ some (some j) →
      ((toggleCoveredState x y st).state).cells j = st.cells j := by
  cases hc : cellRefAt st x y with
  | none =>
      have he : toggleCoveredState x y st = Res.err undefinedReadError st := by
        unfold toggleCoveredState
        rw [hc]
      rw [he]
      exact ⟨rfl, rfl, rfl, rfl, rfl, rfl, rfl, rfl, fun j _ => rfl⟩
  | some o =>
    cases o with
    | none =>
      have he : toggleCoveredState x y st = Res.err undefinedReadError st := by
        unfold toggleCoveredState
        rw [hc]
      rw [he]
      exact ⟨rfl, rfl, rfl, rfl, rfl, rfl, rfl, rfl, fun j _ => rfl⟩
    | some id =>
      have hj : ∀ j : Int × Int, some (some id) ≠ some (some j) → j ≠ id := by
        intro j hne heq
        exact hne (by rw [heq])
      rw [toggleCoveredState_run st x y id hc hfree]
      cases hs : (st.cells id).state <;> simp only [hs] <;>
        refine ⟨rfl, rfl, rfl, rfl, rfl, rfl, rfl, rfl, fun j hne => ?_⟩ <;>
        simp [Res.state, setCellState, hj j hne]

/-- Witness for C10 at a concrete input: a fresh 2 by 2 game with one mine,
toggling (0, 0); the other cells and the rest of the state are unchanged. -/
theorem toggle_frame_spec_witness :
    ((toggleCoveredState 0 0 (mkState 2 2 1 [])).state).board_ = (mkState 2 2 1 []).board_ ∧
    ((toggleCoveredState 0 0 (mkState 2 2 1 [])).state).cells (1, 1)
      = (mkState 2 2 1 []).cells (1, 1) := by
  have h := toggle_frame_spec (mkState 2 2 1 []) 0 0 rfl
  exact ⟨h.1, h.2.2.2.2.2.2.2.2 (1, 1) (by decide)⟩

/-- C7: refuted on the code.  Construction never produces an engine for a
positive-size board: the range check `numMines >= width * height` throws
its RangeError first, and every remaining configuration with at least one
cell then throws a TypeError inside `initBoard_`, whose `Cell(x, y)` call
invokes a class constructor without `new`.  The claimed success state is
unreachable, and the claimed InvalidConfiguration failure for non-positive
arguments does not exist either: non-positive arguments fail, when they
fail, with the same unrelated TypeError.  Evaluated at the valid
configuration (2, 2, 1), at the over-mined (1, 1, 2), and at the
non-positive (1, 1, 0). -/
theorem create_throws_for_positive_boards :
    minesweeperNew 2 2 1 [] = Except.error cellConstructorError ∧
    minesweeperNew 1 1 2 [] = Except.error rangeErrorNumMines ∧
    minesweeperNew 1 1 0 [] = Except.error cellConstructorError :=
  ⟨rfl, rfl, rfl⟩

end MinesweeperModel
